import Mathlib

/-!
# Verification of the cat-collar LED status indicator and battery monitor

Shallow embedding of `src/blinky/battery_monitor.c` / `battery_monitor.h`
and `src/blinky/led_status_indicator.c` / `led_status_indicator.h`.

Conventions of the embedding:
* C global state becomes explicit state records threaded through the
  operations (`battery_status_t`, `led_status_context_t`).
* `uint8_t` fields are `Nat` with `% 256` applied where the C performs an
  implicit narrowing conversion or increment on a `uint8_t` lvalue.
* `float` quantities (`battery_voltage`, `charging_current_ma`) are modelled
  as `ℚ`; the only operation the code performs on them is an order
  comparison against the integer constant `CHARGING_CURRENT_THRESHOLD_MA`,
  which agrees with the rational comparison on all inputs considered.
* The observer callback of the battery monitor is modelled by returning the
  list of callback invocations (`old_state`, `new_state`, status snapshot at
  the moment of the call) an update produces.
* CMSIS timers are modelled by `Option Nat` fields of the LED context
  recording whether the timer is armed and with which delay; `osTimerStop`
  clears the field, `osTimerStart d` sets it to `some d`.
* The mutually recursive C functions `led_start_next_step` /
  `led_process_current_step` are embedded with an explicit fuel parameter;
  the out-of-bounds/NULL array access `config->steps[...]` that the C code
  can perform is modelled by the distinguished outcome `crash`.
-/

namespace CatCollar

/-! ## Battery monitor: data model (`battery_monitor.h`) -/

/-- The `battery_state_t` from `battery_monitor.h`. -/
inductive battery_state_t where
  | BATTERY_STATE_UNKNOWN
  | BATTERY_STATE_NORMAL
  | BATTERY_STATE_LOW
  | BATTERY_STATE_CRITICAL
  | BATTERY_STATE_CHARGING
  | BATTERY_STATE_FULL
deriving DecidableEq, Repr

open battery_state_t

/-- The `battery_status_t` from `battery_monitor.h`. -/
structure battery_status_t where
  battery_percent : Nat
  battery_voltage : ℚ
  charging_current_ma : ℚ
  state : battery_state_t
  is_charging : Bool
  is_low_battery_warning_active : Bool
deriving DecidableEq, Repr

/-- The `BATTERY_LOW_THRESHOLD_PERCENT` (`battery_monitor.h`). -/
def BATTERY_LOW_THRESHOLD_PERCENT : Nat := 20

/-- The `BATTERY_CRITICAL_THRESHOLD_PERCENT` (`battery_monitor.h`). -/
def BATTERY_CRITICAL_THRESHOLD_PERCENT : Nat := 10

/-- The `BATTERY_FULL_THRESHOLD_PERCENT` (`battery_monitor.h`). -/
def BATTERY_FULL_THRESHOLD_PERCENT : Nat := 95

/-- The `CHARGING_CURRENT_THRESHOLD_MA` (`battery_monitor.h`). -/
def CHARGING_CURRENT_THRESHOLD_MA : ℚ := 50

/-- One observer-callback invocation: `(old_state, new_state, *status)` as
passed by `battery_handle_state_change` to `g_state_callback`. -/
abbrev BatteryEvent := battery_state_t × battery_state_t × battery_status_t

/-! ## Battery monitor: operations (`battery_monitor.c`) -/

/-- The `battery_monitor_init` (`battery_monitor.c`, lines 26-49): the initial
value of `g_battery_status` (timer creation is not part of the data model). -/
def battery_monitor_init : battery_status_t :=
  { battery_percent := 100
    battery_voltage := 21 / 5
    charging_current_ma := 0
    state := BATTERY_STATE_NORMAL
    is_charging := false
    is_low_battery_warning_active := false }

/-- The `battery_update_state` (`battery_monitor.c`, lines 133-157):
recomputes `is_charging` and `state` from the stored percent and current. -/
def battery_update_state (st : battery_status_t) : battery_status_t :=
  let is_charging : Bool := st.charging_current_ma > CHARGING_CURRENT_THRESHOLD_MA
  let st := { st with is_charging := is_charging }
  let new_state :=
    if is_charging then
      if st.battery_percent ≥ BATTERY_FULL_THRESHOLD_PERCENT then
        BATTERY_STATE_FULL
      else
        BATTERY_STATE_CHARGING
    else
      if st.battery_percent ≤ BATTERY_CRITICAL_THRESHOLD_PERCENT then
        BATTERY_STATE_CRITICAL
      else if st.battery_percent ≤ BATTERY_LOW_THRESHOLD_PERCENT then
        BATTERY_STATE_LOW
      else
        BATTERY_STATE_NORMAL
  { st with state := new_state }

/-- The `battery_handle_state_change` (`battery_monitor.c`, lines 159-206):
low-battery-warning bookkeeping, then the observer callback invocation
(modelled as the returned event). -/
def battery_handle_state_change (old_state new_state : battery_state_t)
    (st : battery_status_t) : battery_status_t × List BatteryEvent :=
  let st :=
    match new_state with
    | BATTERY_STATE_LOW | BATTERY_STATE_CRITICAL =>
        if !st.is_low_battery_warning_active then
          { st with is_low_battery_warning_active := true }
        else st
    | BATTERY_STATE_CHARGING =>
        if st.is_low_battery_warning_active then
          { st with is_low_battery_warning_active := false }
        else st
    | BATTERY_STATE_FULL =>
        if st.is_low_battery_warning_active then
          { st with is_low_battery_warning_active := false }
        else st
    | BATTERY_STATE_NORMAL =>
        if st.is_low_battery_warning_active then
          { st with is_low_battery_warning_active := false }
        else st
    | BATTERY_STATE_UNKNOWN => st
  (st, [(old_state, new_state, st)])

/-- The `battery_monitor_update_values` (`battery_monitor.c`, lines 99-112).
The `uint8_t` parameter narrowing is made explicit with `% 256`. -/
def battery_monitor_update_values (battery_percent : Nat)
    (battery_voltage charging_current_ma : ℚ)
    (st : battery_status_t) : battery_status_t × List BatteryEvent :=
  let old_state := st.state
  let st := { st with
    battery_percent := battery_percent % 256
    battery_voltage := battery_voltage
    charging_current_ma := charging_current_ma }
  let st := battery_update_state st
  if st.state ≠ old_state then
    battery_handle_state_change old_state st.state st
  else
    (st, [])

/-- The `battery_monitor_force_update` (`battery_monitor.c`, lines 94-97):
just `battery_update_state()`; no comparison, no callback. -/
def battery_monitor_force_update (st : battery_status_t) :
    battery_status_t × List BatteryEvent :=
  (battery_update_state st, [])

/-- The `battery_monitor_get_status` (`battery_monitor.c`, lines 89-92). -/
def battery_monitor_get_status (st : battery_status_t) : battery_status_t := st

/-! ## LED status indicator: data model (`led_status_indicator.h`)

The C enum `led_status_t` is an integer type; `led_status_set` compares its
argument against `LED_STATUS_MAX`, so statuses are modelled as `Nat` with
one named constant per enumerator. -/

def LED_STATUS_POWER_ON : Nat := 0
def LED_STATUS_BLE_PAIRING : Nat := 1
def LED_STATUS_BLE_PAIR_SUCCESS : Nat := 2
def LED_STATUS_BLE_PAIR_FAIL : Nat := 3
def LED_STATUS_FACTORY_RESET : Nat := 4
def LED_STATUS_LOW_BATTERY : Nat := 5
def LED_STATUS_OTA_UPDATE : Nat := 6
def LED_STATUS_OTA_SUCCESS : Nat := 7
def LED_STATUS_OTA_FAIL : Nat := 8
def LED_STATUS_CHARGING : Nat := 9
def LED_STATUS_CHARGE_COMPLETE : Nat := 10
def LED_STATUS_OFF : Nat := 11
def LED_STATUS_MAX : Nat := 12

/-- The `led_pattern_state_t` from `led_status_indicator.h`. -/
inductive led_pattern_state_t where
  | LED_PATTERN_STATE_IDLE
  | LED_PATTERN_STATE_ACTIVE
  | LED_PATTERN_STATE_COMPLETE
deriving DecidableEq, Repr

open led_pattern_state_t

/-- The `led_pattern_step_t` from `led_status_indicator.h`
(`{on_time_ms, off_time_ms, repeat_count, flash_count}`). -/
structure led_pattern_step_t where
  on_time_ms : Nat
  off_time_ms : Nat
  repeat_count : Nat
  flash_count : Nat
deriving DecidableEq, Repr

/-- The `led_pattern_config_t` from `led_status_indicator.h`. The C `steps`
member is a pointer to an array; it is modelled as a `List`, with the empty
list standing for the `NULL` pointer of a zero-initialized table entry.
`step_count` is kept as its own field exactly as in the struct. -/
structure led_pattern_config_t where
  steps : List led_pattern_step_t
  step_count : Nat
  auto_stop : Bool
  auto_stop_delay_ms : Nat
deriving DecidableEq, Repr

/-- The `led_status_context_t` from `led_status_indicator.h`. The two
`osTimerId` handles become `Option Nat` fields: `some d` means the one-shot
timer is armed with delay `d` ms, `none` means it is stopped. -/
structure led_status_context_t where
  current_status : Nat
  pattern_state : led_pattern_state_t
  current_step : Nat
  current_flash : Nat
  repeat_counter : Nat
  step_start_time : Nat
  pattern_start_time : Nat
  led_state : Bool
  timer_armed : Option Nat
  auto_stop_armed : Option Nat
deriving DecidableEq, Repr

/-! ## LED status indicator: pattern table (`led_status_indicator.c`) -/

/-- The `pattern_power_on` (`led_status_indicator.c`, lines 14-16). -/
def pattern_power_on : List led_pattern_step_t := [⟨2000, 0, 1, 1⟩]

/-- The `pattern_ble_pairing` (lines 18-20). -/
def pattern_ble_pairing : List led_pattern_step_t := [⟨200, 800, 0, 1⟩]

/-- The `pattern_ble_pair_success` (lines 22-24). -/
def pattern_ble_pair_success : List led_pattern_step_t := [⟨2000, 0, 1, 1⟩]

/-- The `pattern_ble_pair_fail` (lines 26-30). -/
def pattern_ble_pair_fail : List led_pattern_step_t :=
  [⟨200, 200, 1, 2⟩, ⟨0, 600, 1, 1⟩, ⟨200, 200, 0, 2⟩]

/-- The `pattern_factory_reset` (lines 32-34). -/
def pattern_factory_reset : List led_pattern_step_t := [⟨2000, 0, 1, 1⟩]

/-- The `pattern_ota_update` (lines 37-39). -/
def pattern_ota_update : List led_pattern_step_t := [⟨200, 2800, 0, 1⟩]

/-- The `pattern_ota_fail` (lines 41-44). -/
def pattern_ota_fail : List led_pattern_step_t :=
  [⟨100, 100, 1, 3⟩, ⟨0, 2700, 1, 1⟩]

/-- The `pattern_off` (lines 47-49). -/
def pattern_off : List led_pattern_step_t := [⟨0, 0, 0, 0⟩]

/-- The type of the pattern table: one `led_pattern_config_t` per status. -/
abbrev PatternTable := Nat → led_pattern_config_t

/-- The `led_patterns` (`led_status_indicator.c`, lines 52-62). The C array has
`LED_STATUS_MAX` entries initialized with designated initializers; the
enumerators `LED_STATUS_LOW_BATTERY` (5), `LED_STATUS_CHARGING` (9) and
`LED_STATUS_CHARGE_COMPLETE` (10) have no initializer, so those entries are
zero-initialized: `steps == NULL` (here `[]`), `step_count == 0`. Indices
`≥ LED_STATUS_MAX` are outside the array and never read by the embedded
operations (guarded by `led_status_set`); they map to the same
zero-initialized configuration. -/
def led_patterns : PatternTable := fun status =>
  match status with
  | 0 => ⟨pattern_power_on, 1, true, 0⟩
  | 1 => ⟨pattern_ble_pairing, 1, false, 0⟩
  | 2 => ⟨pattern_ble_pair_success, 1, true, 0⟩
  | 3 => ⟨pattern_ble_pair_fail, 3, false, 0⟩
  | 4 => ⟨pattern_factory_reset, 1, true, 0⟩
  | 6 => ⟨pattern_ota_update, 1, false, 0⟩
  | 7 => ⟨pattern_off, 1, true, 0⟩
  | 8 => ⟨pattern_ota_fail, 2, false, 0⟩
  | 11 => ⟨pattern_off, 1, true, 0⟩
  | _ => ⟨[], 0, false, 0⟩

/-! ## LED status indicator: operations (`led_status_indicator.c`)

`led_start_next_step` and `led_process_current_step` are mutually recursive
through function calls in C; the embedding adds a fuel parameter. The
pattern table is threaded as an explicit parameter (the C code reads the
global `led_patterns` at the top of each function); every theorem about the
concrete program instantiates it with `led_patterns`. -/

/-- Outcome of a sequencer step function: a successfully produced context,
a `crash` for an out-of-bounds / NULL `config->steps[...]` access (which in
the C program is undefined behaviour), or fuel exhaustion. -/
inductive StepOut where
  | ok (ctx : led_status_context_t)
  | crash
  | outOfFuel
deriving DecidableEq, Repr

open StepOut

/-- The `led_set_physical_state` (`led_status_indicator.c`, lines 167-175):
records the commanded output in `led_state` and drives the actuator (the
actuator call has no further observable effect in the model). -/
def led_set_physical_state (ctx : led_status_context_t) (on_state : Bool) :
    led_status_context_t :=
  { ctx with led_state := on_state }

mutual

/-- The `led_start_next_step` (`led_status_indicator.c`, lines 177-203). -/
def led_start_next_step (patterns : PatternTable) (fuel : Nat) (now : Nat)
    (ctx : led_status_context_t) : StepOut :=
  match fuel with
  | 0 => outOfFuel
  | fuel + 1 =>
    let config := patterns ctx.current_status
    if ctx.current_step ≥ config.step_count then
      -- Pattern complete, check for repeat
      match config.steps.head? with
      | none => crash  -- first_step = &config->steps[0] with steps == NULL
      | some first_step =>
        if first_step.repeat_count = 0 then
          -- Infinite repeat, restart from beginning
          let ctx := { ctx with current_step := 0 }
          led_process_current_step patterns fuel now
            { ctx with current_flash := 0, step_start_time := now }
        else
          -- Pattern finished
          let ctx := { ctx with pattern_state := LED_PATTERN_STATE_COMPLETE }
          let ctx := led_set_physical_state ctx false
          if config.auto_stop ∧ config.auto_stop_delay_ms > 0 then
            ok { ctx with auto_stop_armed := some config.auto_stop_delay_ms }
          else
            ok ctx
    else
      led_process_current_step patterns fuel now
        { ctx with current_flash := 0, step_start_time := now }

/-- The `led_process_current_step` (`led_status_indicator.c`, lines 205-247). -/
def led_process_current_step (patterns : PatternTable) (fuel : Nat)
    (now : Nat) (ctx : led_status_context_t) : StepOut :=
  match fuel with
  | 0 => outOfFuel
  | fuel + 1 =>
    let config := patterns ctx.current_status
    match config.steps.get? ctx.current_step with
    | none => crash  -- step = &config->steps[current_step] out of bounds
    | some step =>
      if ctx.current_flash ≥ step.flash_count ∧ step.flash_count > 0 then
        -- Move to next step
        led_start_next_step patterns fuel now
          { ctx with current_step := (ctx.current_step + 1) % 256 }
      else
        let (next_led_state, next_delay, ctx) :=
          if step.on_time_ms = 0 ∧ step.off_time_ms = 0 then
            -- Special case: solid state
            (false, 1000, ctx)
          else if !ctx.led_state then
            -- LED is off, turn it on
            (true, step.on_time_ms, ctx)
          else
            -- LED is on, turn it off
            (false, step.off_time_ms,
              { ctx with current_flash := (ctx.current_flash + 1) % 256 })
        let ctx := led_set_physical_state ctx next_led_state
        if next_delay > 0 then
          ok { ctx with timer_armed := some next_delay }
        else
          -- Continue immediately
          led_process_current_step patterns fuel now ctx

end

/-- The `led_timer_callback` (`led_status_indicator.c`, lines 249-256). -/
def led_timer_callback (patterns : PatternTable) (fuel : Nat) (now : Nat)
    (ctx : led_status_context_t) : StepOut :=
  if ctx.pattern_state = LED_PATTERN_STATE_ACTIVE then
    led_process_current_step patterns fuel now ctx
  else
    ok ctx

/-- The `led_status_stop` (`led_status_indicator.c`, lines 158-165). -/
def led_status_stop (ctx : led_status_context_t) : led_status_context_t :=
  let ctx := { ctx with timer_armed := none, auto_stop_armed := none }
  let ctx := led_set_physical_state ctx false
  { ctx with
    pattern_state := LED_PATTERN_STATE_IDLE
    current_status := LED_STATUS_OFF }

/-- The `auto_stop_timer_callback` (`led_status_indicator.c`, lines 258-262):
unconditionally calls `led_status_stop`. -/
def auto_stop_timer_callback (ctx : led_status_context_t) :
    led_status_context_t :=
  led_status_stop ctx

/-- The `sl_status_t` values returned by the embedded operations. -/
inductive sl_status_t where
  | SL_STATUS_OK
  | SL_STATUS_FAIL
  | SL_STATUS_INVALID_PARAMETER
deriving DecidableEq, Repr

open sl_status_t

/-- Outcome of `led_status_set`: a returned status code together with the
final context, or a propagated `crash` / fuel exhaustion from the step
machinery. -/
inductive SetOut where
  | ret (status : sl_status_t) (ctx : led_status_context_t)
  | crash
  | outOfFuel
deriving DecidableEq, Repr

/-- The `led_status_set` (`led_status_indicator.c`, lines 115-146). `now` is
the value `osKernelGetTickCount()` returns during the call. -/
def led_status_set (patterns : PatternTable) (fuel : Nat) (now : Nat)
    (status : Nat) (ctx : led_status_context_t) : SetOut :=
  if status ≥ LED_STATUS_MAX then
    SetOut.ret SL_STATUS_INVALID_PARAMETER ctx
  else
    -- Stop any current pattern
    let ctx := { ctx with timer_armed := none, auto_stop_armed := none }
    -- Update context
    let ctx := { ctx with
      current_status := status
      pattern_state := LED_PATTERN_STATE_ACTIVE
      current_step := 0
      current_flash := 0
      repeat_counter := 0
      pattern_start_time := now }
    -- Handle special cases
    if status = LED_STATUS_OFF ∨ status = LED_STATUS_OTA_SUCCESS then
      let ctx := led_set_physical_state ctx false
      SetOut.ret SL_STATUS_OK
        { ctx with pattern_state := LED_PATTERN_STATE_COMPLETE }
    else
      -- Start the pattern
      match led_start_next_step patterns fuel now ctx with
      | ok ctx => SetOut.ret SL_STATUS_OK ctx
      | crash => SetOut.crash
      | outOfFuel => SetOut.outOfFuel

/-- The `led_status_get_current` (`led_status_indicator.c`, lines 148-151). -/
def led_status_get_current (ctx : led_status_context_t) : Nat :=
  ctx.current_status

/-- The `led_status_is_active` (`led_status_indicator.c`, lines 153-156). -/
def led_status_is_active (ctx : led_status_context_t) : Bool :=
  ctx.pattern_state = LED_PATTERN_STATE_ACTIVE

/-- The `led_status_indicator_init` (`led_status_indicator.c`, lines 76-113):
the initial `g_led_context` after successful initialization (timer creation
is not part of the data model; both timers start out stopped, the LED is
forced off). -/
def led_status_indicator_init : led_status_context_t :=
  { current_status := LED_STATUS_OFF
    pattern_state := LED_PATTERN_STATE_IDLE
    current_step := 0
    current_flash := 0
    repeat_counter := 0
    step_start_time := 0
    pattern_start_time := 0
    led_state := false
    timer_armed := none
    auto_stop_armed := none }

/-! ## Derived definitions used by the verification -/

/-- The store step of `battery_monitor_update_values` (lines 103-105):
the status record with the three measured fields overwritten. -/
def battery_store (p : Nat) (v c : ℚ) (st : battery_status_t) :
    battery_status_t :=
  { st with battery_percent := p % 256, battery_voltage := v, charging_current_ma := c }

/-- The states of `g_battery_status` reachable through the public battery
operations: the stored percent fits in a `uint8_t` and the stored `state`
agrees with re-running the threshold classification on the stored values.
Established by `battery_monitor_init` and preserved by every update. -/
def battery_state_consistent (st : battery_status_t) : Prop :=
  st.battery_percent < 256 ∧ (battery_update_state st).state = st.state

instance (st : battery_status_t) : Decidable (battery_state_consistent st) :=
  inferInstanceAs (Decidable (_ ∧ _))

/-- A public battery-monitor operation that can run after initialization
(the periodic timer callback is an `update_values` with fixed arguments,
cf. `battery_monitor_timer_callback`, lines 114-131). -/
inductive BatteryOp where
  | update_values (battery_percent : Nat) (battery_voltage charging_current_ma : ℚ)
  | force_update
deriving Repr

/-- Run a sequence of public battery-monitor operations from a state. -/
def battery_run (st : battery_status_t) : List BatteryOp → battery_status_t
  | [] => st
  | op :: ops =>
    match op with
    | BatteryOp.update_values p v c =>
        battery_run (battery_monitor_update_values p v c st).1 ops
    | BatteryOp.force_update =>
        battery_run (battery_monitor_force_update st).1 ops

/-- The context produced by `led_status_set` for the special-cased statuses
(`LED_STATUS_OFF`, `LED_STATUS_OTA_SUCCESS`): cursor reset, timers
stopped, output off, phase `COMPLETE`. -/
def led_noop_result (now status : Nat) (ctx : led_status_context_t) :
    led_status_context_t :=
  { ctx with
    timer_armed := none
    auto_stop_armed := none
    current_status := status
    pattern_state := led_pattern_state_t.LED_PATTERN_STATE_COMPLETE
    current_step := 0
    current_flash := 0
    repeat_counter := 0
    pattern_start_time := now
    led_state := false }

/-- A pattern table for exercising the auto-stop branch: a single finite
step with `auto_stop = true` and a positive `auto_stop_delay_ms` (the
shipped `led_patterns` table has `auto_stop_delay_ms = 0` everywhere). -/
def demo_auto_stop_table : PatternTable :=
  fun _ => ⟨[⟨100, 100, 1, 1⟩], 1, true, 250⟩

/-- A context that has just walked past the last step of its pattern. -/
def demo_done_ctx : led_status_context_t :=
  { current_status := 0
    pattern_state := led_pattern_state_t.LED_PATTERN_STATE_ACTIVE
    current_step := 1
    current_flash := 1
    repeat_counter := 0
    step_start_time := 0
    pattern_start_time := 0
    led_state := false
    timer_armed := none
    auto_stop_armed := none }

/-- The context after the pattern-finished branch of `led_start_next_step`
(lines 188-190): phase `COMPLETE`, output driven off. -/
def led_pattern_complete_ctx (ctx : led_status_context_t) :
    led_status_context_t :=
  { ctx with
    pattern_state := led_pattern_state_t.LED_PATTERN_STATE_COMPLETE
    led_state := false }

/-- Arming the auto-stop one-shot timer for `d` ms (line 193). -/
def led_arm_auto_stop (d : Nat) (ctx : led_status_context_t) :
    led_status_context_t :=
  { ctx with auto_stop_armed := some d }

/-- The context with which stepping resumes after the infinite-repeat reset
of `led_start_next_step` (lines 184-186 followed by 199-200): step cursor
back to `0`, flash counter cleared, step start stamped. -/
def led_restart_ctx (now : Nat) (ctx : led_status_context_t) :
    led_status_context_t :=
  { ctx with current_step := 0, current_flash := 0, step_start_time := now }

/-- A context in the middle of the infinite `LED_STATUS_BLE_PAIRING`
pattern, about to evaluate the repeat/advance logic past the last step. -/
def demo_pairing_ctx : led_status_context_t :=
  { current_status := LED_STATUS_BLE_PAIRING
    pattern_state := led_pattern_state_t.LED_PATTERN_STATE_ACTIVE
    current_step := 1
    current_flash := 1
    repeat_counter := 0
    step_start_time := 0
    pattern_start_time := 0
    led_state := false
    timer_armed := none
    auto_stop_armed := none }

end CatCollar


namespace CatCollar

open battery_state_t led_pattern_state_t sl_status_t StepOut

/-! ## Helper lemmas: battery monitor -/

/-- The `battery_handle_state_change` only touches the low-warning flag. -/
lemma battery_handle_state_change_fst (o n : battery_state_t)
    (st : battery_status_t) :
    (battery_handle_state_change o n st).1 =
      { st with is_low_battery_warning_active :=
          (battery_handle_state_change o n st).1.is_low_battery_warning_active } := by
  cases n <;> simp only [battery_handle_state_change] <;> split <;> rfl

/-- The flag after `battery_handle_state_change`, as a function of the new
state (for any new state actually produced by `battery_update_state`). -/
lemma battery_handle_state_change_flag (o n : battery_state_t)
    (st : battery_status_t) :
    (battery_handle_state_change o n st).1.is_low_battery_warning_active =
      match n with
      | BATTERY_STATE_LOW | BATTERY_STATE_CRITICAL => true
      | BATTERY_STATE_UNKNOWN => st.is_low_battery_warning_active
      | _ => false := by
  cases n <;> simp only [battery_handle_state_change] <;> split <;>
    simp_all

/-- The `battery_handle_state_change` reports exactly one event, carrying the
old state, the new state and the post-bookkeeping status record. -/
lemma battery_handle_state_change_snd (o n : battery_state_t)
    (st : battery_status_t) :
    (battery_handle_state_change o n st).2 =
      [(o, n, (battery_handle_state_change o n st).1)] := by
  cases n <;> simp only [battery_handle_state_change]

/-- The state computed by `battery_update_state` from stored values. -/
lemma battery_update_state_state (st : battery_status_t) :
    (battery_update_state st).state =
      if st.charging_current_ma > CHARGING_CURRENT_THRESHOLD_MA then
        if st.battery_percent ≥ BATTERY_FULL_THRESHOLD_PERCENT then
          BATTERY_STATE_FULL
        else BATTERY_STATE_CHARGING
      else
        if st.battery_percent ≤ BATTERY_CRITICAL_THRESHOLD_PERCENT then
          BATTERY_STATE_CRITICAL
        else if st.battery_percent ≤ BATTERY_LOW_THRESHOLD_PERCENT then
          BATTERY_STATE_LOW
        else BATTERY_STATE_NORMAL := by
  simp only [battery_update_state]
  by_cases h : st.charging_current_ma > CHARGING_CURRENT_THRESHOLD_MA <;>
    simp [h]

/-- The `battery_update_state` never produces `BATTERY_STATE_UNKNOWN`. -/
lemma battery_update_state_ne_unknown (st : battery_status_t) :
    (battery_update_state st).state ≠ BATTERY_STATE_UNKNOWN := by
  rw [battery_update_state_state]
  split_ifs <;> simp

/-- The `battery_update_state` stores `is_charging` as the threshold test. -/
lemma battery_update_state_is_charging (st : battery_status_t) :
    (battery_update_state st).is_charging =
      decide (st.charging_current_ma > CHARGING_CURRENT_THRESHOLD_MA) := by
  simp only [battery_update_state]

lemma battery_handle_state_change_state (o n : battery_state_t)
    (st : battery_status_t) :
    (battery_handle_state_change o n st).1.state = st.state := by
  rw [battery_handle_state_change_fst]

lemma battery_handle_state_change_is_charging (o n : battery_state_t)
    (st : battery_status_t) :
    (battery_handle_state_change o n st).1.is_charging = st.is_charging := by
  rw [battery_handle_state_change_fst]

/-- Unfolding `battery_monitor_update_values`: store, reclassify, and fire
the observer exactly when the state changed. -/
lemma battery_monitor_update_values_eq (p : Nat) (v c : ℚ)
    (st : battery_status_t) :
    battery_monitor_update_values p v c st =
      if (battery_update_state (battery_store p v c st)).state ≠ st.state
      then
        battery_handle_state_change st.state
          (battery_update_state (battery_store p v c st)).state
          (battery_update_state (battery_store p v c st))
      else
        (battery_update_state (battery_store p v c st), []) := rfl

/-- The resulting state of an update is the reclassification of the stored
values, whether or not the observer fired. -/
lemma battery_monitor_update_values_fst_state (p : Nat) (v c : ℚ)
    (st : battery_status_t) :
    (battery_monitor_update_values p v c st).1.state =
      (battery_update_state (battery_store p v c st)).state := by
  rw [battery_monitor_update_values_eq]
  split
  · rw [battery_handle_state_change_state]
  · rfl

lemma battery_monitor_update_values_fst_is_charging (p : Nat) (v c : ℚ)
    (st : battery_status_t) :
    (battery_monitor_update_values p v c st).1.is_charging =
      decide (c > CHARGING_CURRENT_THRESHOLD_MA) := by
  rw [battery_monitor_update_values_eq]
  split
  · rw [battery_handle_state_change_is_charging, battery_update_state_is_charging]
    rfl
  · rw [battery_update_state_is_charging]
    rfl

lemma battery_handle_state_change_percent (o n : battery_state_t)
    (st : battery_status_t) :
    (battery_handle_state_change o n st).1.battery_percent =
      st.battery_percent := by
  rw [battery_handle_state_change_fst]

lemma battery_handle_state_change_current (o n : battery_state_t)
    (st : battery_status_t) :
    (battery_handle_state_change o n st).1.charging_current_ma =
      st.charging_current_ma := by
  rw [battery_handle_state_change_fst]

lemma battery_monitor_update_values_fst_percent (p : Nat) (v c : ℚ)
    (st : battery_status_t) :
    (battery_monitor_update_values p v c st).1.battery_percent = p % 256 := by
  rw [battery_monitor_update_values_eq]
  split
  · rw [battery_handle_state_change_percent]
    rfl
  · rfl

lemma battery_monitor_update_values_fst_current (p : Nat) (v c : ℚ)
    (st : battery_status_t) :
    (battery_monitor_update_values p v c st).1.charging_current_ma = c := by
  rw [battery_monitor_update_values_eq]
  split
  · rw [battery_handle_state_change_current]
    rfl
  · rfl

/-- The classification result only looks at the stored percent and charging
current. -/
lemma battery_update_state_state_congr (st st' : battery_status_t)
    (hp : st.battery_percent = st'.battery_percent)
    (hc : st.charging_current_ma = st'.charging_current_ma) :
    (battery_update_state st).state = (battery_update_state st').state := by
  rw [battery_update_state_state, battery_update_state_state, hp, hc]

/-- `battery_state_consistent` is preserved by `battery_monitor_update_values`. -/
lemma battery_monitor_update_values_consistent (p : Nat) (v c : ℚ)
    (st : battery_status_t) :
    battery_state_consistent (battery_monitor_update_values p v c st).1 := by
  constructor
  · rw [battery_monitor_update_values_fst_percent]
    exact Nat.mod_lt _ (by norm_num)
  · rw [battery_monitor_update_values_fst_state]
    exact battery_update_state_state_congr _ _
      (by rw [battery_monitor_update_values_fst_percent]; rfl)
      (by rw [battery_monitor_update_values_fst_current]; rfl)

/-- `battery_state_consistent` is preserved by `battery_monitor_force_update`. -/
lemma battery_monitor_force_update_consistent (st : battery_status_t)
    (h : st.battery_percent < 256) :
    battery_state_consistent (battery_monitor_force_update st).1 := by
  refine ⟨h, ?_⟩
  exact battery_update_state_state_congr _ _ rfl rfl

/-- Every state reachable from `battery_monitor_init` through the public
battery operations satisfies `battery_state_consistent`: the hypothesis of
the C2 theorem is exactly the reachable-state invariant. -/
lemma battery_run_consistent (ops : List BatteryOp) :
    battery_state_consistent (battery_run battery_monitor_init ops) := by
  have step : ∀ st : battery_status_t, battery_state_consistent st →
      ∀ ops : List BatteryOp,
        battery_state_consistent (battery_run st ops) := by
    intro st h ops
    induction ops generalizing st with
    | nil => exact h
    | cons op ops ih =>
      cases op with
      | update_values p v c =>
        exact ih _ (battery_monitor_update_values_consistent p v c st)
      | force_update =>
        exact ih _ (battery_monitor_force_update_consistent st h.1)
  exact step battery_monitor_init ⟨by norm_num [battery_monitor_init], rfl⟩ ops

/-! ## Claim theorems: battery monitor -/

/-- C3: for every call `battery_monitor_update_values(percent, voltage,
current_ma)` (with `percent` a `uint8_t` value), `is_charging` is set to
`current_ma > 50`; when charging, the state is `FULL` for `percent ≥ 95`
and `CHARGING` otherwise; when not charging, the state is `CRITICAL` for
`percent ≤ 10`, `LOW` for `10 < percent ≤ 20` and `NORMAL` for
`percent > 20`. In particular `update(100, 4.2, 20)` yields
`is_charging = false` and state `NORMAL`. -/
theorem battery_update_values_classification (st : battery_status_t)
    (p : Nat) (v c : ℚ) (hp : p < 256) :
    ((battery_monitor_update_values p v c st).1.is_charging
        = decide (c > CHARGING_CURRENT_THRESHOLD_MA)) ∧
    (c > CHARGING_CURRENT_THRESHOLD_MA →
      (p ≥ BATTERY_FULL_THRESHOLD_PERCENT →
        (battery_monitor_update_values p v c st).1.state = BATTERY_STATE_FULL) ∧
      (p < BATTERY_FULL_THRESHOLD_PERCENT →
        (battery_monitor_update_values p v c st).1.state = BATTERY_STATE_CHARGING)) ∧
    (¬ c > CHARGING_CURRENT_THRESHOLD_MA →
      (p ≤ BATTERY_CRITICAL_THRESHOLD_PERCENT →
        (battery_monitor_update_values p v c st).1.state = BATTERY_STATE_CRITICAL) ∧
      (BATTERY_CRITICAL_THRESHOLD_PERCENT < p → p ≤ BATTERY_LOW_THRESHOLD_PERCENT →
        (battery_monitor_update_values p v c st).1.state = BATTERY_STATE_LOW) ∧
      (BATTERY_LOW_THRESHOLD_PERCENT < p →
        (battery_monitor_update_values p v c st).1.state = BATTERY_STATE_NORMAL)) ∧
    (battery_monitor_update_values 100 (21/5) 20 st).1.is_charging = false ∧
    (battery_monitor_update_values 100 (21/5) 20 st).1.state = BATTERY_STATE_NORMAL := by
  have hmod : p % 256 = p := Nat.mod_eq_of_lt hp
  have hstate : ∀ q : Nat, ∀ w d : ℚ,
      (battery_monitor_update_values q w d st).1.state =
        if d > CHARGING_CURRENT_THRESHOLD_MA then
          if q % 256 ≥ BATTERY_FULL_THRESHOLD_PERCENT then BATTERY_STATE_FULL
          else BATTERY_STATE_CHARGING
        else
          if q % 256 ≤ BATTERY_CRITICAL_THRESHOLD_PERCENT then BATTERY_STATE_CRITICAL
          else if q % 256 ≤ BATTERY_LOW_THRESHOLD_PERCENT then BATTERY_STATE_LOW
          else BATTERY_STATE_NORMAL := by
    intro q w d
    rw [battery_monitor_update_values_fst_state, battery_update_state_state]
    rfl
  refine ⟨battery_monitor_update_values_fst_is_charging p v c st, ?_, ?_, ?_, ?_⟩
  · intro hc
    constructor <;> intro hq <;> rw [hstate, if_pos hc, hmod]
    · rw [if_pos hq]
    · rw [if_neg (by omega)]
  · intro hc
    refine ⟨?_, ?_, ?_⟩
    · intro hq
      rw [hstate, if_neg hc, hmod, if_pos hq]
    · intro hq1 hq2
      rw [hstate, if_neg hc, hmod, if_neg (by omega), if_pos hq2]
    · intro hq
      rw [hstate, if_neg hc, hmod,
        if_neg (by simp only [BATTERY_CRITICAL_THRESHOLD_PERCENT,
          BATTERY_LOW_THRESHOLD_PERCENT] at hq ⊢; omega),
        if_neg (by omega)]
  · rw [battery_monitor_update_values_fst_is_charging]
    norm_num [CHARGING_CURRENT_THRESHOLD_MA]
  · rw [hstate]
    norm_num [CHARGING_CURRENT_THRESHOLD_MA, BATTERY_CRITICAL_THRESHOLD_PERCENT,
      BATTERY_LOW_THRESHOLD_PERCENT]

/-- Witness for C3: the classifier evaluated on `update(5, 3.0, 0)` through
`battery_update_values_classification` gives `CRITICAL`. -/
theorem battery_update_values_classification_witness :
    (battery_monitor_update_values 5 3 0 battery_monitor_init).1.state =
      BATTERY_STATE_CRITICAL :=
  ((battery_update_values_classification battery_monitor_init 5 3 0
      (by norm_num)).2.2.1 (by norm_num [CHARGING_CURRENT_THRESHOLD_MA])).1
    (by norm_num [BATTERY_CRITICAL_THRESHOLD_PERCENT])

/-- C10: after `battery_monitor_init` the stored state is
`BATTERY_STATE_NORMAL` with percent `100` and `is_charging = false`, and no
sequence of `battery_monitor_update_values` / `battery_monitor_force_update`
calls ever stores `BATTERY_STATE_UNKNOWN`. -/
theorem battery_state_unknown_unreachable :
    battery_monitor_init.state = BATTERY_STATE_NORMAL ∧
    battery_monitor_init.battery_percent = 100 ∧
    battery_monitor_init.is_charging = false ∧
    ∀ ops : List BatteryOp,
      (battery_run battery_monitor_init ops).state ≠ BATTERY_STATE_UNKNOWN := by
  have step : ∀ st : battery_status_t, st.state ≠ BATTERY_STATE_UNKNOWN →
      ∀ ops : List BatteryOp,
        (battery_run st ops).state ≠ BATTERY_STATE_UNKNOWN := by
    intro st h ops
    induction ops generalizing st with
    | nil => exact h
    | cons op ops ih =>
      cases op with
      | update_values p v c =>
        refine ih _ ?_
        rw [battery_monitor_update_values_fst_state]
        exact battery_update_state_ne_unknown _
      | force_update =>
        exact ih _ (battery_update_state_ne_unknown _)
  exact ⟨rfl, rfl, rfl, step battery_monitor_init (by decide)⟩

/-- C2: on every reachable state of the monitor (percent fits a `uint8_t`
and the stored state agrees with re-classifying the stored values),
`battery_monitor_force_update()` is observationally equivalent to
`battery_monitor_update_values` applied to the currently stored percent,
voltage and charging current: same resulting status record, same observer
events (none, since re-classifying last-known values cannot change the
state on such a state). -/
theorem force_update_equiv_update_values_on_stored (st : battery_status_t)
    (h : battery_state_consistent st) :
    battery_monitor_force_update st =
      battery_monitor_update_values st.battery_percent st.battery_voltage
        st.charging_current_ma st := by
  obtain ⟨h1, h2⟩ := h
  have hself : battery_store st.battery_percent st.battery_voltage
      st.charging_current_ma st = st := by
    unfold battery_store
    rw [Nat.mod_eq_of_lt h1]
  rw [battery_monitor_update_values_eq, hself, battery_monitor_force_update,
    if_neg (by simp [h2])]

/-- Witness for C2: the freshly initialized monitor state satisfies the
reachability invariant, and there force-update and self-update agree. -/
theorem force_update_equiv_update_values_witness :
    battery_monitor_force_update battery_monitor_init =
      battery_monitor_update_values battery_monitor_init.battery_percent
        battery_monitor_init.battery_voltage
        battery_monitor_init.charging_current_ma battery_monitor_init :=
  force_update_equiv_update_values_on_stored battery_monitor_init
    ⟨by norm_num [battery_monitor_init], by rfl⟩

/-- C8: each `battery_monitor_update_values` call raises the observer event
exactly once when the derived state differs from the stored one, carrying
`(old_state, new_state, status_record)`, and raises none otherwise; on a
raising transition the low-warning flag becomes true on entering
`LOW`/`CRITICAL` and false on entering `CHARGING`/`FULL`/`NORMAL`. In
particular `update(15, 3.2, 0)` from the initial (`NORMAL`) state yields
`LOW`, exactly one event `(NORMAL, LOW, record)`, and the flag set. -/
theorem battery_update_values_observer (st : battery_status_t)
    (p : Nat) (v c : ℚ) :
    ((battery_monitor_update_values p v c st).1.state ≠ st.state →
      (battery_monitor_update_values p v c st).2 =
        [(st.state, (battery_monitor_update_values p v c st).1.state,
          (battery_monitor_update_values p v c st).1)]) ∧
    ((battery_monitor_update_values p v c st).1.state = st.state →
      (battery_monitor_update_values p v c st).2 = []) ∧
    ((battery_monitor_update_values p v c st).1.state ≠ st.state →
      (((battery_monitor_update_values p v c st).1.state = BATTERY_STATE_LOW ∨
        (battery_monitor_update_values p v c st).1.state = BATTERY_STATE_CRITICAL) →
        (battery_monitor_update_values p v c st).1.is_low_battery_warning_active = true) ∧
      (((battery_monitor_update_values p v c st).1.state = BATTERY_STATE_CHARGING ∨
        (battery_monitor_update_values p v c st).1.state = BATTERY_STATE_FULL ∨
        (battery_monitor_update_values p v c st).1.state = BATTERY_STATE_NORMAL) →
        (battery_monitor_update_values p v c st).1.is_low_battery_warning_active = false)) ∧
    battery_monitor_update_values 15 (16/5) 0 battery_monitor_init =
      ({ battery_percent := 15, battery_voltage := 16/5, charging_current_ma := 0,
         state := BATTERY_STATE_LOW, is_charging := false,
         is_low_battery_warning_active := true },
       [(BATTERY_STATE_NORMAL, BATTERY_STATE_LOW,
         { battery_percent := 15, battery_voltage := 16/5, charging_current_ma := 0,
           state := BATTERY_STATE_LOW, is_charging := false,
           is_low_battery_warning_active := true })]) := by
  by_cases h : (battery_update_state (battery_store p v c st)).state = st.state
  · refine ⟨?_, ?_, ?_, by rfl⟩
    · intro hne
      exact absurd (by rw [battery_monitor_update_values_fst_state, h]) hne
    · intro _
      rw [battery_monitor_update_values_eq, if_neg (by simp [h])]
    · intro hne
      exact absurd (by rw [battery_monitor_update_values_fst_state, h]) hne
  · have heq : battery_monitor_update_values p v c st =
        battery_handle_state_change st.state
          (battery_update_state (battery_store p v c st)).state
          (battery_update_state (battery_store p v c st)) := by
      rw [battery_monitor_update_values_eq, if_pos (by simp [h])]
    have hstate : (battery_monitor_update_values p v c st).1.state =
        (battery_update_state (battery_store p v c st)).state :=
      battery_monitor_update_values_fst_state p v c st
    refine ⟨?_, ?_, fun _ => ⟨?_, ?_⟩, by rfl⟩
    · intro _
      rw [heq, battery_handle_state_change_snd, battery_handle_state_change_state]
    · intro hsame
      exact absurd (by rw [← hstate]; exact hsame) h
    · intro hlow
      rw [hstate] at hlow
      rw [heq, battery_handle_state_change_flag]
      rcases hlow with hl | hl <;> rw [hl]
    · intro hclear
      rw [hstate] at hclear
      rw [heq, battery_handle_state_change_flag]
      rcases hclear with hl | hl | hl <;> rw [hl]

/-- Witness for C8: `update(15, 3.2, 0)` from the initial `NORMAL` state,
through `battery_update_values_observer`, produces exactly the single
`(NORMAL, LOW)` event with the low-warning flag active. -/
theorem battery_update_values_observer_witness :
    battery_monitor_update_values 15 (16/5) 0 battery_monitor_init =
      ({ battery_percent := 15, battery_voltage := 16/5, charging_current_ma := 0,
         state := BATTERY_STATE_LOW, is_charging := false,
         is_low_battery_warning_active := true },
       [(BATTERY_STATE_NORMAL, BATTERY_STATE_LOW,
         { battery_percent := 15, battery_voltage := 16/5, charging_current_ma := 0,
           state := BATTERY_STATE_LOW, is_charging := false,
           is_low_battery_warning_active := true })]) :=
  (battery_update_values_observer battery_monitor_init 15 (16/5) 0).2.2.2

/-! ## Claim theorems: LED status indicator -/

/-- C9: `led_status_stop` is callable in every sequencer state and
idempotent: one call yields phase `IDLE`, status `OFF`, output off and both
timers stopped, and a second call leaves the context unchanged. -/
theorem led_status_stop_idempotent (ctx : led_status_context_t) :
    led_status_stop (led_status_stop ctx) = led_status_stop ctx ∧
    (led_status_stop ctx).pattern_state = LED_PATTERN_STATE_IDLE ∧
    (led_status_stop ctx).current_status = LED_STATUS_OFF ∧
    (led_status_stop ctx).led_state = false ∧
    (led_status_stop ctx).timer_armed = none ∧
    (led_status_stop ctx).auto_stop_armed = none :=
  ⟨rfl, rfl, rfl, rfl, rfl, rfl⟩

/-- C1 (refuted, code bug): `LED_STATUS_LOW_BATTERY` is accepted by
`led_status_set` (`5 < LED_STATUS_MAX`) and is not special-cased, yet its
`led_patterns` entry is zero-initialized (`steps == NULL`, modelled `[]`,
`step_count == 0`), so `led_start_next_step` dereferences
`config->steps[0]` out of bounds: the call crashes instead of running an
initialized non-empty steps array. The same holds for
`LED_STATUS_CHARGING` and `LED_STATUS_CHARGE_COMPLETE`. -/
theorem led_low_battery_null_steps :
    (led_patterns LED_STATUS_LOW_BATTERY).steps = [] ∧
    (led_patterns LED_STATUS_LOW_BATTERY).step_count = 0 ∧
    LED_STATUS_LOW_BATTERY < LED_STATUS_MAX ∧
    led_status_set led_patterns 10 0 LED_STATUS_LOW_BATTERY
      led_status_indicator_init = SetOut.crash ∧
    (led_patterns LED_STATUS_CHARGE_COMPLETE).steps = [] ∧
    led_status_set led_patterns 10 0 LED_STATUS_CHARGE_COMPLETE
      led_status_indicator_init = SetOut.crash := by
  decide

/-- C7: for `LED_STATUS_OFF` and every status whose table entry is the
no-op pattern (`pattern_off`, i.e. exactly `OFF` and `OTA_SUCCESS`),
`led_status_set` forces the output off and goes directly to `COMPLETE` with
both timers unarmed; afterwards `is_active()` is false and `current()`
returns the status that was set. -/
theorem led_set_noop_pattern (fuel now s : Nat) (ctx : led_status_context_t)
    (hs : s < LED_STATUS_MAX) (hnoop : (led_patterns s).steps = pattern_off) :
    led_status_set led_patterns fuel now s ctx =
      SetOut.ret SL_STATUS_OK (led_noop_result now s ctx) ∧
    (led_noop_result now s ctx).timer_armed = none ∧
    (led_noop_result now s ctx).auto_stop_armed = none ∧
    (led_noop_result now s ctx).led_state = false ∧
    (led_noop_result now s ctx).pattern_state = LED_PATTERN_STATE_COMPLETE ∧
    led_status_is_active (led_noop_result now s ctx) = false ∧
    led_status_get_current (led_noop_result now s ctx) = s := by
  have hs12 : s < 12 := hs
  refine ⟨?_, rfl, rfl, rfl, rfl, rfl, rfl⟩
  interval_cases s
  all_goals first
    | rfl
    | exact absurd hnoop (by decide)

/-- Witness for C7: `set(OFF)` from the initialized context. -/
theorem led_set_noop_pattern_witness :
    led_status_set led_patterns 4 3 LED_STATUS_OFF led_status_indicator_init =
      SetOut.ret SL_STATUS_OK
        (led_noop_result 3 LED_STATUS_OFF led_status_indicator_init) :=
  (led_set_noop_pattern 4 3 LED_STATUS_OFF led_status_indicator_init
    (by decide) (by decide)).1

/-- Counterexample to C6 as stated: `LED_STATUS_CHARGING` is in range
(`9 < LED_STATUS_MAX`), yet `led_status_set` does not return success — it
dereferences the NULL `steps` pointer of the zero-initialized table entry. -/
theorem led_set_in_range_crash :
    led_status_set led_patterns 10 0 LED_STATUS_CHARGING
      led_status_indicator_init = SetOut.crash := by
  decide

set_option maxHeartbeats 2000000 in
/-- C6 (amended): `led_status_set` returns `SL_STATUS_INVALID_PARAMETER`
iff the status is out of range (`≥ LED_STATUS_MAX`), and in that case
mutates no sequencer state (the context is returned unchanged); every
in-range status whose table entry has a non-empty steps array returns
`SL_STATUS_OK`; the three statuses with a zero-initialized entry
(`LOW_BATTERY`, `CHARGING`, `CHARGE_COMPLETE`) instead crash on the NULL
`steps` dereference. -/
theorem led_status_set_error_contract (fuel now s : Nat)
    (ctx : led_status_context_t) :
    (s ≥ LED_STATUS_MAX →
      led_status_set led_patterns fuel now s ctx =
        SetOut.ret SL_STATUS_INVALID_PARAMETER ctx) ∧
    (s < LED_STATUS_MAX → (led_patterns s).steps ≠ [] →
      ∃ r, led_status_set led_patterns 10 now s ctx =
        SetOut.ret SL_STATUS_OK r) ∧
    (s < LED_STATUS_MAX → (led_patterns s).steps = [] →
      led_status_set led_patterns (fuel + 1) now s ctx = SetOut.crash) := by
  refine ⟨?_, ?_, ?_⟩
  · intro h
    unfold led_status_set
    rw [if_pos h]
  · intro hs hsteps
    have hs12 : s < 12 := hs
    obtain ⟨cs, ps, cstep, cflash, rc, sst, pst, ls, ta, asa⟩ := ctx
    interval_cases s <;> first
      | exact absurd rfl hsteps
      | cases ls <;> exact ⟨_, rfl⟩
  · intro hs hsteps
    have hs12 : s < 12 := hs
    interval_cases s <;> first
      | exact absurd hsteps (by decide)
      | rfl

/-- Witness for C6: an out-of-range status is rejected with the context
unchanged. -/
theorem led_status_set_error_contract_witness :
    led_status_set led_patterns 10 0 LED_STATUS_MAX led_status_indicator_init =
      SetOut.ret SL_STATUS_INVALID_PARAMETER led_status_indicator_init :=
  (led_status_set_error_contract 10 0 LED_STATUS_MAX
    led_status_indicator_init).1 (by decide)

/-- C5: for a pattern whose first step has `repeat_count ≠ 0`, running the
step-advance logic past the last step puts the sequencer in `COMPLETE`
with the output off, arming the auto-stop timer for `auto_stop_delay_ms`
exactly when `auto_stop` is set with a positive delay; the auto-stop
callback unconditionally invokes `led_status_stop`, after which the phase
is `IDLE` and the status is `OFF`. -/
theorem led_pattern_completion_auto_stop (patterns : PatternTable)
    (fuel now : Nat) (ctx : led_status_context_t) (first : led_pattern_step_t)
    (hhead : (patterns ctx.current_status).steps.head? = some first)
    (hrep : first.repeat_count ≠ 0)
    (hdone : ctx.current_step ≥ (patterns ctx.current_status).step_count) :
    led_start_next_step patterns (fuel + 1) now ctx =
      StepOut.ok
        (if (patterns ctx.current_status).auto_stop ∧
            (patterns ctx.current_status).auto_stop_delay_ms > 0 then
          led_arm_auto_stop (patterns ctx.current_status).auto_stop_delay_ms
            (led_pattern_complete_ctx ctx)
        else led_pattern_complete_ctx ctx) ∧
    ((patterns ctx.current_status).auto_stop = true →
      (patterns ctx.current_status).auto_stop_delay_ms > 0 →
      led_start_next_step patterns (fuel + 1) now ctx =
        StepOut.ok (led_arm_auto_stop
          (patterns ctx.current_status).auto_stop_delay_ms
          (led_pattern_complete_ctx ctx))) ∧
    (∀ c : led_status_context_t,
      auto_stop_timer_callback c = led_status_stop c ∧
      (auto_stop_timer_callback c).pattern_state = LED_PATTERN_STATE_IDLE ∧
      (auto_stop_timer_callback c).current_status = LED_STATUS_OFF ∧
      (auto_stop_timer_callback c).led_state = false) := by
  have hmain : led_start_next_step patterns (fuel + 1) now ctx =
      StepOut.ok
        (if (patterns ctx.current_status).auto_stop ∧
            (patterns ctx.current_status).auto_stop_delay_ms > 0 then
          led_arm_auto_stop (patterns ctx.current_status).auto_stop_delay_ms
            (led_pattern_complete_ctx ctx)
        else led_pattern_complete_ctx ctx) := by
    simp only [led_start_next_step]
    rw [if_pos hdone, hhead]
    dsimp only
    rw [if_neg hrep]
    split <;> rfl
  refine ⟨hmain, ?_, fun c => ⟨rfl, rfl, rfl, rfl⟩⟩
  intro hstop hdelay
  rw [hmain, if_pos ⟨hstop, hdelay⟩]

/-- Witness for C5: a one-step finite pattern with `auto_stop = true` and
delay `250` ms, evaluated past its last step. -/
theorem led_pattern_completion_auto_stop_witness :
    led_start_next_step demo_auto_stop_table 3 0 demo_done_ctx =
      StepOut.ok (led_arm_auto_stop 250
        (led_pattern_complete_ctx demo_done_ctx)) :=
  (led_pattern_completion_auto_stop demo_auto_stop_table 2 0 demo_done_ctx
    ⟨100, 100, 1, 1⟩ (by decide) (by decide) (by decide)).2.1 rfl (by decide)

/-- The step machinery preserves the pattern phase and the current status
whenever the first step of the driving pattern has `repeat_count == 0`:
the only assignment of `COMPLETE` sits in the `repeat_count != 0` branch. -/
lemma led_step_preserves_phase (fuel : Nat) :
    ∀ (patterns : PatternTable) (now : Nat) (ctx : led_status_context_t)
      (first : led_pattern_step_t),
      (patterns ctx.current_status).steps.head? = some first →
      first.repeat_count = 0 →
      (∀ r, led_start_next_step patterns fuel now ctx = StepOut.ok r →
        r.pattern_state = ctx.pattern_state ∧
        r.current_status = ctx.current_status) ∧
      (∀ r, led_process_current_step patterns fuel now ctx = StepOut.ok r →
        r.pattern_state = ctx.pattern_state ∧
        r.current_status = ctx.current_status) := by
  induction fuel with
  | zero =>
    intro patterns now ctx first hhead hrep
    constructor <;> intro r h <;>
      simp [led_start_next_step, led_process_current_step] at h
  | succ fuel ih =>
    intro patterns now ctx first hhead hrep
    constructor
    · intro r h
      simp only [led_start_next_step] at h
      by_cases hge : ctx.current_step ≥ (patterns ctx.current_status).step_count
      · rw [if_pos hge, hhead] at h
        dsimp only at h
        rw [if_pos hrep] at h
        exact (ih patterns now
          { ctx with current_step := 0, current_flash := 0, step_start_time := now }
          first hhead hrep).2 r h
      · rw [if_neg hge] at h
        exact (ih patterns now
          { ctx with current_flash := 0, step_start_time := now }
          first hhead hrep).2 r h
    · intro r h
      simp only [led_process_current_step] at h
      cases hget : (patterns ctx.current_status).steps.get? ctx.current_step with
      | none => rw [hget] at h; cases h
      | some step =>
        rw [hget] at h
        dsimp only at h
        by_cases hflash : ctx.current_flash ≥ step.flash_count ∧ step.flash_count > 0
        · rw [if_pos hflash] at h
          exact (ih patterns now
            { ctx with current_step := (ctx.current_step + 1) % 256 }
            first hhead hrep).1 r h
        · rw [if_neg hflash] at h
          by_cases h00 : step.on_time_ms = 0 ∧ step.off_time_ms = 0
          · rw [if_pos h00] at h
            dsimp only [led_set_physical_state] at h
            rw [if_pos (by norm_num)] at h
            injection h with h2
            subst h2
            exact ⟨rfl, rfl⟩
          · rw [if_neg h00] at h
            cases hled : ctx.led_state with
            | false =>
              rw [hled] at h
              simp only [Bool.not_false, reduceIte] at h
              dsimp only [led_set_physical_state] at h
              by_cases hd : step.on_time_ms > 0
              · rw [if_pos hd] at h
                injection h with h2
                subst h2
                exact ⟨rfl, rfl⟩
              · rw [if_neg hd] at h
                exact (ih patterns now
                  { ctx with led_state := true }
                  first hhead hrep).2 r h
            | true =>
              rw [hled] at h
              simp only [Bool.not_true, Bool.false_eq_true, reduceIte] at h
              dsimp only [led_set_physical_state] at h
              by_cases hd : step.off_time_ms > 0
              · rw [if_pos hd] at h
                injection h with h2
                subst h2
                exact ⟨rfl, rfl⟩
              · rw [if_neg hd] at h
                exact (ih patterns now
                  { ctx with current_flash := (ctx.current_flash + 1) % 256, led_state := false }
                  first hhead hrep).2 r h

/-- C4: for every pattern whose first step has `repeat_count == 0`, the
step-advance logic past the last step resets `current_step` to `0` and
keeps stepping (looping driven solely by `steps[0].repeat_count`), and the
step machinery — `led_start_next_step` and the timer callback — never
changes the pattern phase: the sequencer cannot reach `COMPLETE` by
stepping alone and leaves `ACTIVE` only through `set()`/`stop()`. -/
theorem led_infinite_pattern_stays_active (patterns : PatternTable)
    (fuel now : Nat) (ctx : led_status_context_t)
    (first : led_pattern_step_t)
    (hhead : (patterns ctx.current_status).steps.head? = some first)
    (hrep : first.repeat_count = 0) :
    (∀ r, led_start_next_step patterns fuel now ctx = StepOut.ok r →
      r.pattern_state = ctx.pattern_state) ∧
    (∀ r, led_timer_callback patterns fuel now ctx = StepOut.ok r →
      r.pattern_state = ctx.pattern_state) ∧
    (ctx.current_step ≥ (patterns ctx.current_status).step_count →
      led_start_next_step patterns (fuel + 1) now ctx =
        led_process_current_step patterns fuel now (led_restart_ctx now ctx)) := by
  refine ⟨?_, ?_, ?_⟩
  · intro r h
    exact ((led_step_preserves_phase fuel patterns now ctx first hhead hrep).1
      r h).1
  · intro r h
    unfold led_timer_callback at h
    by_cases hact : ctx.pattern_state = LED_PATTERN_STATE_ACTIVE
    · rw [if_pos hact] at h
      exact ((led_step_preserves_phase fuel patterns now ctx first hhead
        hrep).2 r h).1
    · rw [if_neg hact] at h
      cases h
      rfl
  · intro hge
    simp only [led_start_next_step]
    rw [if_pos hge, hhead]
    dsimp only
    rw [if_pos hrep]
    rfl

/-- Witness for C4: the `BLE_PAIRING` pattern (first step
`{200, 800, 0, 1}`) sitting past its last step restarts from step `0`. -/
theorem led_infinite_pattern_stays_active_witness :
    led_start_next_step led_patterns 6 0 demo_pairing_ctx =
      led_process_current_step led_patterns 5 0
        (led_restart_ctx 0 demo_pairing_ctx) :=
  (led_infinite_pattern_stays_active led_patterns 5 0 demo_pairing_ctx
    ⟨200, 800, 0, 1⟩ (by decide) rfl).2.2 (by decide)

end CatCollar
